import Mathlib

/-!
Verification development for the resource-endpoint caching core
(`src/classes/Endpoint.ts`: classes `Endpoint<T>` and `NamedEndpoint<T>`).

The TypeScript source is shallowly embedded as follows.

* Decoded JSON values (what `fetch(...).then(res => res.json())` yields,
  what is stored in the caches, and what field access returns) are the
  inductive type `JSVal`.  JavaScript `undefined` is a constructor, since
  `Map.get` on a miss and property access on an absent field produce it.
* The `Collection`/`Map` instances (`cache`, `_nameMap`) are association
  lists in insertion order; `mapSet` overwrites in place as `Map.set`
  does, `mapFind` looks up with the SameValueZero comparison `jsEq`.
  Object- and array-valued keys compare by reference in JavaScript; every
  object reaching a map key here is a fresh decode, so `jsEq` soundly
  returns `false` on them, and is ordinary equality on primitives.
* Each asynchronous method is a function of the endpoint state and a
  transport script: the list of responses the remote transport will give
  to successive calls, each either a decoded value or a thrown failure
  (`TErr` covers both transport and decode failures, which the core never
  distinguishes).  A method returns its result (`Except`, since failures
  propagate unchanged), the new endpoint state, the list of request URIs
  it issued (its transport calls, in order), and the unconsumed script.
  An exhausted script behaves as a failed call.
* `ApiResourceList` / `NamedApiResourceList` are outside the provided
  source; per the specification they are plain data containers built from
  `count`, `next`, `previous`, `results` and are modelled from the spec
  where noted.
-/

/-- Decoded JSON values, plus JavaScript `undefined`. -/
inductive JSVal where
  | undef
  | null
  | bool (b : Bool)
  | num (n : Int)
  | str (s : String)
  | arr (elems : List JSVal)
  | obj (fields : List (String × JSVal))

/-- JavaScript truthiness of a value, as used by `||` in `resolve` and by
the `if (this._list)` tests.  (`NaN` does not arise in the integer model.) -/
def jsTruthy : JSVal → Bool
  | .undef => false
  | .null => false
  | .bool b => b
  | .num n => n != 0
  | .str s => s != ""
  | .arr _ => true
  | .obj _ => true

/-- SameValueZero comparison used by `Map.get`/`Map.set` on keys.
Primitives compare by value.  Objects and arrays compare by reference in
JavaScript; every object that becomes a key in this program is a freshly
decoded response (or a field of one), never the same reference twice, so
the comparison is modelled as `false` on them. -/
def jsEq : JSVal → JSVal → Bool
  | .undef, .undef => true
  | .null, .null => true
  | .bool a, .bool b => a == b
  | .num a, .num b => a == b
  | .str a, .str b => a == b
  | _, _ => false

/-- Property access `v.f` on a decoded value: the field's value in an
object, `undefined` when the field is absent or the value is not an
object.  (JavaScript would throw on `null.f`/`undefined.f`; no code path
relevant to the claims performs such an access.) -/
def getField (v : JSVal) (f : String) : JSVal :=
  match v with
  | .obj fields => (((fields.find? (fun p => p.1 == f)).map (fun p => p.2)).getD .undef)
  | _ => (.undef)

/-- Elements of a decoded value when it is an array, `[]` otherwise. -/
def getArr : JSVal → List JSVal
  | .arr elems => elems
  | _ => []

mutual

/-- JavaScript string conversion of a value, as performed by template
interpolation in request URIs (notably the interpolated `count` in
`listAll`). -/
def jsToString : JSVal → String
  | .undef => "undefined"
  | .null => "null"
  | .bool b => if b then "true" else "false"
  | .num n => toString n
  | .str s => s
  | .arr elems => jsArrJoin elems
  | .obj _ => "[object Object]"

/-- Array-to-string conversion: elements joined with commas, with `null`
and `undefined` elements rendered empty, as `Array.prototype.toString`
does. -/
def jsArrJoin : List JSVal → String
  | [] => ""
  | [x] =>
    match x with
    | .undef => ""
    | .null => ""
    | y => jsToString y
  | x :: xs =>
    (match x with
     | .undef => ""
     | .null => ""
     | y => jsToString y) ++ "," ++ jsArrJoin xs

end

/-- Association list with `Map` semantics: lookup by SameValueZero. -/
def mapFind : List (JSVal × JSVal) → JSVal → Option JSVal
  | [], _ => none
  | (k', v') :: rest, k => if jsEq k' k then some v' else mapFind rest k

/-- `Map.set`: overwrite the first matching key in place (keeping the
stored key and insertion position), append when absent. -/
def mapSet : List (JSVal × JSVal) → JSVal → JSVal → List (JSVal × JSVal)
  | [], k, v => [(k, v)]
  | (k', v') :: rest, k, v =>
    if jsEq k' k then (k', v) :: rest else (k', v') :: mapSet rest k v

/-- `Map.get`: the stored value, or `undefined` on a miss. -/
def jsMapGet (m : List (JSVal × JSVal)) (k : JSVal) : JSVal :=
  ((mapFind m k).getD .undef)

/-- Index clamping of `Array.prototype.slice`: negative indices count
from the end, and indices are clamped to `[0, len]`. -/
def jsSliceIdx (len : Nat) (i : Int) : Nat :=
  if i < 0 then (max ((len : Int) + i) 0).toNat else min i.toNat len

/-- `Array.prototype.slice(start, end)`: the elements from the clamped
start index up to, excluding, the clamped end index. -/
def jsSlice (l : List JSVal) (start stop : Int) : List JSVal :=
  (l.take (jsSliceIdx l.length stop)).drop (jsSliceIdx l.length start)

/-- A failure thrown by a transport call: network/HTTP failure or decode
failure (the core never distinguishes them), or the environment giving
no response at all (exhausted script). -/
inductive TErr where
  | failure (msg : String)
  | noResponse

/-- The transport script: the responses the remote transport returns to
successive calls, in order. -/
abbrev Script := List (Except TErr JSVal)

/-- Outcome of one asynchronous endpoint method: the returned or thrown
result, the endpoint state afterwards, the request URIs issued to the
transport (in order), and the unconsumed remainder of the script. -/
structure OpOut (σ : Type) (α : Type) where
  res : Except TErr α
  st : σ
  log : List String
  script : Script

/-- Modelled from the spec: the paged-listing data container
(`ApiResourceList` / `NamedApiResourceList`, whose source file is not
included) holds `count`, `next`, `previous` and the ordered `results`
sequence; the two variants are built identically at runtime, so a single
structure models both.  The back-reference to the owning endpoint plays
no role in any claim and is omitted. -/
structure ApiResourceList where
  count : JSVal
  next : JSVal
  previous : JSVal
  results : List JSVal

/-- Modelled from the spec: constructing the listing container from a
decoded page object (`new ApiResourceList(data, this)` on the transport
path) reads the four fields of the decoded value. -/
def mkApiResourceList (data : JSVal) : ApiResourceList :=
  { count := getField data "count"
    next := getField data "next"
    previous := getField data "previous"
    results := getArr (getField data "results") }

/-- Base URI of the remote API (`BASE_URI` in the source). -/
def BASE_URI : String := "https://pokeapi.co/api/v2"

/-- State of a base `Endpoint<T>` instance: the `Collection` resource
cache and the `_list` snapshot field (`Option.none` models the field
being `undefined` before any caching `listAll`; an `ApiResourceList`
object is always truthy, so the source's `if (this._list)` test is
exactly `Option.isSome`). -/
structure EndpointState where
  cache : List (JSVal × JSVal)
  _list : Option ApiResourceList

/-- State of a freshly constructed `Endpoint` (`new Endpoint(resource)`):
empty cache, no snapshot. -/
def Endpoint.init : EndpointState :=
  ⟨[], none⟩

/-- `Endpoint#_cache(data)`: `this.cache.set(data.id, data)`. -/
def Endpoint._cache (st : EndpointState) (data : JSVal) : EndpointState :=
  { st with cache := mapSet st.cache (getField data "id") data }

/-- `Endpoint#get(param)`: `this.cache.get(param)`. -/
def Endpoint.get (st : EndpointState) (param : Int) : JSVal :=
  jsMapGet st.cache (.num param)

/-- `Endpoint#fetch(param, cache)`: one transport request to
`BASE_URI/resource/param`, then `this._cache(data)` and return the
decoded value; a thrown failure propagates with the state unchanged.
The `cache` parameter is bound but nowhere read in the source, so it is
unused here too. -/
def Endpoint.fetch (resource : String) (st : EndpointState) (script : Script)
    (param : Int) (cacheArg : Bool) : OpOut EndpointState JSVal :=
  let url := BASE_URI ++ "/" ++ resource ++ "/" ++ toString param
  match script with
  | [] => ⟨.error .noResponse, st, [url], []⟩
  | .error e :: rest => ⟨.error e, st, [url], rest⟩
  | .ok data :: rest => ⟨.ok data, Endpoint._cache st data, [url], rest⟩

/-- `Endpoint#resolve(param)`: `this.get(param) || this.fetch(param)` —
the cached value when truthy, otherwise a fetch (with `fetch`'s default
`cache = true`). -/
def Endpoint.resolve (resource : String) (st : EndpointState) (script : Script)
    (param : Int) : OpOut EndpointState JSVal :=
  let g := Endpoint.get st param
  if jsTruthy g then ⟨.ok g, st, [], script⟩
  else Endpoint.fetch resource st script param true

/-- `Endpoint#list(limit, offset)`: with a snapshot present, a new
listing built from the snapshot's `count`/`next`/`previous` and
`results.slice(offset, limit)`, no transport call; otherwise one
transport request with `limit` and `offset` query parameters. -/
def Endpoint.list (resource : String) (st : EndpointState) (script : Script)
    (limit offset : Int) : OpOut EndpointState ApiResourceList :=
  match st._list with
  | some l =>
    ⟨.ok ⟨l.count, l.next, l.previous, jsSlice l.results offset limit⟩, st, [], script⟩
  | none =>
    let url := BASE_URI ++ "/" ++ resource ++ "?limit=" ++ toString limit
      ++ "&offset=" ++ toString offset
    match script with
    | [] => ⟨.error .noResponse, st, [url], []⟩
    | .error e :: rest => ⟨.error e, st, [url], rest⟩
    | .ok data :: rest => ⟨.ok (mkApiResourceList data), st, [url], rest⟩

/-- `Endpoint#listAll(cache)`: the snapshot when present (no transport
call); otherwise a request with `limit=1`, destructuring `count` from
the response, then a request with `limit=count`; the resulting listing
is stored as `this._list` when the `cache` argument is true; a failure
of either call propagates with the state unchanged. -/
def Endpoint.listAll (resource : String) (st : EndpointState) (script : Script)
    (cacheArg : Bool) : OpOut EndpointState ApiResourceList :=
  match st._list with
  | some l => ⟨.ok l, st, [], script⟩
  | none =>
    let url1 := BASE_URI ++ "/" ++ resource ++ "?limit=1"
    match script with
    | [] => ⟨.error .noResponse, st, [url1], []⟩
    | .error e :: rest => ⟨.error e, st, [url1], rest⟩
    | .ok d1 :: rest =>
      let url2 := BASE_URI ++ "/" ++ resource ++ "?limit=" ++ jsToString (getField d1 "count")
      match rest with
      | [] => ⟨.error .noResponse, st, [url1, url2], []⟩
      | .error e :: rest2 => ⟨.error e, st, [url1, url2], rest2⟩
      | .ok d2 :: rest2 =>
        let l := mkApiResourceList d2
        ⟨.ok l, { st with _list := if cacheArg then some l else st._list },
          [url1, url2], rest2⟩

/-- `String.prototype.toLowerCase`, modelled as per-character
lowercasing; this coincides with `toLowerCase` on the ASCII resource
names this API serves (and is extensionally `String.toLower`, written
out so that the kernel can evaluate it on literals). -/
def jsToLower (s : String) : String :=
  ⟨s.data.map Char.toLower⟩

/-- `NamedEndpointParam = EndpointParam | string`. -/
inductive NamedEndpointParam where
  | num (n : Int)
  | str (s : String)

/-- State of a `NamedEndpoint<T>` instance: the inherited resource cache
and `_list` snapshot, plus the `_nameMap` name index (a `Map` whose keys
are whatever `data.name` was, including `undefined`). -/
structure NamedEndpointState where
  cache : List (JSVal × JSVal)
  _nameMap : List (JSVal × JSVal)
  _list : Option ApiResourceList

/-- State of a freshly constructed `NamedEndpoint`. -/
def NamedEndpoint.init : NamedEndpointState :=
  ⟨[], [], none⟩

/-- `NamedEndpoint#_cache(data)`: `this.cache.set(data.id, data)` and
`this._nameMap.set(data.name, data.id)` — note the name is stored as
decoded, not lower-cased. -/
def NamedEndpoint._cache (st : NamedEndpointState) (data : JSVal) : NamedEndpointState :=
  { st with
    cache := mapSet st.cache (getField data "id") data
    _nameMap := mapSet st._nameMap (getField data "name") (getField data "id") }

/-- `NamedEndpoint#get(param)`: a numeric param is looked up in the
cache directly; a string param is lower-cased, translated through
`_nameMap`, and the translation (possibly `undefined`) is looked up in
the cache. -/
def NamedEndpoint.get (st : NamedEndpointState) (param : NamedEndpointParam) : JSVal :=
  match param with
  | .num n => jsMapGet st.cache (.num n)
  | .str s => jsMapGet st.cache (jsMapGet st._nameMap (.str (jsToLower s)))

/-- `NamedEndpoint#fetch(param, cache)`: a string param is lower-cased
before being interpolated into the request URI; then as the base fetch,
but caching through `NamedEndpoint#_cache`. -/
def NamedEndpoint.fetch (resource : String) (st : NamedEndpointState) (script : Script)
    (param : NamedEndpointParam) (cacheArg : Bool) : OpOut NamedEndpointState JSVal :=
  let p := match param with
    | .str s => NamedEndpointParam.str (jsToLower s)
    | x => x
  let url := BASE_URI ++ "/" ++ resource ++ "/"
    ++ (match p with | .num n => toString n | .str s => s)
  match script with
  | [] => ⟨.error .noResponse, st, [url], []⟩
  | .error e :: rest => ⟨.error e, st, [url], rest⟩
  | .ok data :: rest => ⟨.ok data, NamedEndpoint._cache st data, [url], rest⟩

/-- `NamedEndpoint#resolve` is inherited from `Endpoint` and dispatches
to the overriding `get` and `fetch`. -/
def NamedEndpoint.resolve (resource : String) (st : NamedEndpointState) (script : Script)
    (param : NamedEndpointParam) : OpOut NamedEndpointState JSVal :=
  let g := NamedEndpoint.get st param
  if jsTruthy g then ⟨.ok g, st, [], script⟩
  else NamedEndpoint.fetch resource st script param true

/-- `NamedEndpoint#list(limit, offset)`: identical control flow to the
base `list`, on the named state. -/
def NamedEndpoint.list (resource : String) (st : NamedEndpointState) (script : Script)
    (limit offset : Int) : OpOut NamedEndpointState ApiResourceList :=
  match st._list with
  | some l =>
    ⟨.ok ⟨l.count, l.next, l.previous, jsSlice l.results offset limit⟩, st, [], script⟩
  | none =>
    let url := BASE_URI ++ "/" ++ resource ++ "?limit=" ++ toString limit
      ++ "&offset=" ++ toString offset
    match script with
    | [] => ⟨.error .noResponse, st, [url], []⟩
    | .error e :: rest => ⟨.error e, st, [url], rest⟩
    | .ok data :: rest => ⟨.ok (mkApiResourceList data), st, [url], rest⟩

/-- `NamedEndpoint#listAll(cache)`: identical control flow to the base
`listAll`, on the named state. -/
def NamedEndpoint.listAll (resource : String) (st : NamedEndpointState) (script : Script)
    (cacheArg : Bool) : OpOut NamedEndpointState ApiResourceList :=
  match st._list with
  | some l => ⟨.ok l, st, [], script⟩
  | none =>
    let url1 := BASE_URI ++ "/" ++ resource ++ "?limit=1"
    match script with
    | [] => ⟨.error .noResponse, st, [url1], []⟩
    | .error e :: rest => ⟨.error e, st, [url1], rest⟩
    | .ok d1 :: rest =>
      let url2 := BASE_URI ++ "/" ++ resource ++ "?limit=" ++ jsToString (getField d1 "count")
      match rest with
      | [] => ⟨.error .noResponse, st, [url1, url2], []⟩
      | .error e :: rest2 => ⟨.error e, st, [url1, url2], rest2⟩
      | .ok d2 :: rest2 =>
        let l := mkApiResourceList d2
        ⟨.ok l, { st with _list := if cacheArg then some l else st._list },
          [url1, url2], rest2⟩

/-- Keys that SameValueZero declares equal are equal values.  (The
converse fails for objects, which compare by reference.) -/
theorem jsEq_eq {a b : JSVal} (h : jsEq a b = true) : a = b := by
  cases a <;> cases b <;> simp_all [jsEq]

/-- Lookup after `Map.set`: the new value at the written key, the old
map elsewhere. -/
theorem mapFind_mapSet (m : List (JSVal × JSVal)) (k v q : JSVal) :
    mapFind (mapSet m k v) q = if jsEq k q then some v else mapFind m q := by
  induction m with
  | nil => simp [mapSet, mapFind]
  | cons hd tl ih =>
    obtain ⟨k', v'⟩ := hd
    by_cases h : jsEq k' k = true
    · have hk : k' = k := jsEq_eq h
      subst hk
      by_cases h2 : jsEq k' q = true <;> simp [mapSet, mapFind, h, h2]
    · by_cases h1 : jsEq k' q = true <;> by_cases h2 : jsEq k q = true <;>
        simp [mapSet, mapFind, h, h1, h2, ih]
      have e1 : k' = q := jsEq_eq h1
      have e2 : k = q := jsEq_eq h2
      subst e1; subst e2
      exact absurd h2 h

/-- A key present before `Map.set` is present afterwards. -/
theorem mapFind_mapSet_isSome (m : List (JSVal × JSVal)) (k v q : JSVal)
    (h : (mapFind m q).isSome) : (mapFind (mapSet m k v) q).isSome := by
  rw [mapFind_mapSet]
  split <;> simp [h]

/-- `list` never changes the endpoint state (neither branch assigns). -/
theorem Endpoint.list_st (resource : String) (st : EndpointState) (script : Script)
    (limit offset : Int) : (Endpoint.list resource st script limit offset).st = st := by
  unfold Endpoint.list
  cases st._list with
  | some l => rfl
  | none =>
    cases script with
    | nil => rfl
    | cons r rest => cases r <;> rfl

/-- `listAll` never changes the resource cache (it only assigns `_list`). -/
theorem Endpoint.listAll_cache_eq (resource : String) (st : EndpointState) (script : Script)
    (b : Bool) : (Endpoint.listAll resource st script b).st.cache = st.cache := by
  unfold Endpoint.listAll
  cases st._list with
  | some l => rfl
  | none =>
    cases script with
    | nil => rfl
    | cons r rest =>
      cases r with
      | error e => rfl
      | ok d1 =>
        cases rest with
        | nil => rfl
        | cons r2 rest2 => cases r2 <;> rfl

/-- One public operation on a base `Endpoint` instance, related to the
state it leaves behind (`_cache` is a public method in the source and is
included; `get` does not touch the state). -/
inductive EStep (resource : String) : EndpointState → EndpointState → Prop where
  | resolveStep (st : EndpointState) (script : Script) (param : Int) :
      EStep resource st (Endpoint.resolve resource st script param).st
  | fetchStep (st : EndpointState) (script : Script) (param : Int) (b : Bool) :
      EStep resource st (Endpoint.fetch resource st script param b).st
  | listStep (st : EndpointState) (script : Script) (limit offset : Int) :
      EStep resource st (Endpoint.list resource st script limit offset).st
  | listAllStep (st : EndpointState) (script : Script) (b : Bool) :
      EStep resource st (Endpoint.listAll resource st script b).st
  | cacheStep (st : EndpointState) (data : JSVal) :
      EStep resource st (Endpoint._cache st data)

/-- Endpoint states reachable from construction by any sequence of
public operations, under arbitrary transport scripts. -/
inductive EReachable (resource : String) : EndpointState → Prop where
  | init : EReachable resource Endpoint.init
  | step (st st' : EndpointState) : EReachable resource st → EStep resource st st' →
      EReachable resource st'

/-- Invariant: every cache value stored under a numeric key is truthy.
(The only inserts are `cache.set(data.id, data)`, and a value whose `id`
field reads back as a number is an object, hence truthy.) -/
def numKeyedTruthy (st : EndpointState) : Prop :=
  ∀ (i : Int) (v : JSVal), mapFind st.cache (.num i) = some v → jsTruthy v = true

/-- A value whose `id` field reads back as a number is an object, hence
truthy. -/
theorem jsTruthy_of_getField_num (d : JSVal) (f : String) (i : Int)
    (h : getField d f = .num i) : jsTruthy d = true := by
  cases d <;> simp_all [getField, jsTruthy]

/-- `_cache` preserves the numeric-key truthiness invariant. -/
theorem numKeyedTruthy_cache (st : EndpointState) (d : JSVal)
    (h : numKeyedTruthy st) : numKeyedTruthy (Endpoint._cache st d) := by
  intro i v hv
  unfold Endpoint._cache at hv
  simp only [mapFind_mapSet] at hv
  split at hv
  · next heq =>
      have hid : getField d "id" = .num i := jsEq_eq heq
      cases hv
      exact jsTruthy_of_getField_num d "id" i hid
  · exact h i v hv

/-- `fetch` preserves the numeric-key truthiness invariant. -/
theorem numKeyedTruthy_fetch (resource : String) (st : EndpointState) (script : Script)
    (param : Int) (b : Bool) (h : numKeyedTruthy st) :
    numKeyedTruthy (Endpoint.fetch resource st script param b).st := by
  unfold Endpoint.fetch
  cases script with
  | nil => exact h
  | cons r rest =>
    cases r with
    | error e => exact h
    | ok d => exact numKeyedTruthy_cache st d h

/-- Every public operation preserves the numeric-key truthiness
invariant. -/
theorem numKeyedTruthy_step {resource : String} {st st' : EndpointState}
    (hs : EStep resource st st') (h : numKeyedTruthy st) : numKeyedTruthy st' := by
  cases hs with
  | resolveStep script param =>
    unfold Endpoint.resolve
    by_cases hg : jsTruthy (Endpoint.get st param) = true
    · simpa [hg] using h
    · simp only [Bool.not_eq_true] at hg
      simpa [hg] using numKeyedTruthy_fetch resource st script param true h
  | fetchStep script param b => exact numKeyedTruthy_fetch resource st script param b h
  | listStep script limit offset =>
    rw [show (Endpoint.list resource st script limit offset).st = st from
      Endpoint.list_st resource st script limit offset]
    exact h
  | listAllStep script b =>
    intro i v hv
    rw [show (Endpoint.listAll resource st script b).st.cache = st.cache from
      Endpoint.listAll_cache_eq resource st script b] at hv
    exact h i v hv
  | cacheStep data => exact numKeyedTruthy_cache st data h

/-- Every reachable endpoint state satisfies the numeric-key truthiness
invariant. -/
theorem reachable_numKeyedTruthy {resource : String} {st : EndpointState}
    (h : EReachable resource st) : numKeyedTruthy st := by
  induction h with
  | init => intro i v hv; simp [Endpoint.init, mapFind] at hv
  | step st st' hr hs ih => exact numKeyedTruthy_step hs ih

/-- C1: `listAll` returns an existing snapshot immediately with zero
transport calls; with no snapshot it issues exactly two sequential
calls, first `limit=1` and then `limit=count` with the count read from
the first response, stores the listing as the snapshot exactly when its
cache flag is true, and two sequential default `listAll()` calls issue
two transport calls in total with the second returning the identical
snapshot; likewise for the named endpoint. -/
theorem listAll_snapshot_protocol (resource : String) (st : EndpointState)
    (stN : NamedEndpointState) (script : Script) (b : Bool) (l lN : ApiResourceList)
    (d1 d2 : JSVal) (rest : Script) :
    (st._list = some l →
      Endpoint.listAll resource st script b = ⟨.ok l, st, [], script⟩) ∧
    (st._list = none → script = .ok d1 :: .ok d2 :: rest →
      Endpoint.listAll resource st script b =
        ⟨.ok (mkApiResourceList d2),
         { st with _list := if b then some (mkApiResourceList d2) else none },
         [BASE_URI ++ "/" ++ resource ++ "?limit=1",
          BASE_URI ++ "/" ++ resource ++ "?limit=" ++ jsToString (getField d1 "count")],
         rest⟩) ∧
    (st._list = none → script = .ok d1 :: .ok d2 :: rest →
      (Endpoint.listAll resource st script true).log.length +
        (Endpoint.listAll resource (Endpoint.listAll resource st script true).st
          (Endpoint.listAll resource st script true).script true).log.length = 2 ∧
      (Endpoint.listAll resource (Endpoint.listAll resource st script true).st
          (Endpoint.listAll resource st script true).script true).res =
        (Endpoint.listAll resource st script true).res ∧
      (Endpoint.listAll resource (Endpoint.listAll resource st script true).st
          (Endpoint.listAll resource st script true).script true).st =
        (Endpoint.listAll resource st script true).st) ∧
    (stN._list = some lN →
      NamedEndpoint.listAll resource stN script b = ⟨.ok lN, stN, [], script⟩) ∧
    (stN._list = none → script = .ok d1 :: .ok d2 :: rest →
      NamedEndpoint.listAll resource stN script b =
        ⟨.ok (mkApiResourceList d2),
         { stN with _list := if b then some (mkApiResourceList d2) else none },
         [BASE_URI ++ "/" ++ resource ++ "?limit=1",
          BASE_URI ++ "/" ++ resource ++ "?limit=" ++ jsToString (getField d1 "count")],
         rest⟩) := by
  refine ⟨?_, ?_, ?_, ?_, ?_⟩
  · intro h
    simp [Endpoint.listAll, h]
  · intro h hs
    subst hs
    simp [Endpoint.listAll, h]
  · intro h hs
    subst hs
    simp [Endpoint.listAll, h]
  · intro h
    simp [NamedEndpoint.listAll, h]
  · intro h hs
    subst hs
    simp [NamedEndpoint.listAll, h]

/-- Witness for C1: concrete no-snapshot run with two scripted pages. -/
theorem listAll_snapshot_protocol_witness :
    Endpoint.listAll "berry" Endpoint.init
      [.ok (.obj [("count", .num 2)]),
       .ok (.obj [("count", .num 2), ("next", .null), ("previous", .null),
         ("results", .arr [.obj [("name", .str "a")], .obj [("name", .str "b")]])])]
      true =
      ⟨.ok (mkApiResourceList (.obj [("count", .num 2), ("next", .null), ("previous", .null),
         ("results", .arr [.obj [("name", .str "a")], .obj [("name", .str "b")]])])),
       { Endpoint.init with
         _list :=
           some (mkApiResourceList (.obj [("count", .num 2), ("next", .null),
             ("previous", .null),
             ("results", .arr [.obj [("name", .str "a")], .obj [("name", .str "b")]])])) },
       [BASE_URI ++ "/" ++ "berry" ++ "?limit=1",
        BASE_URI ++ "/" ++ "berry" ++ "?limit=" ++
          jsToString (getField (.obj [("count", .num 2)]) "count")],
       []⟩ :=
  (listAll_snapshot_protocol "berry" Endpoint.init NamedEndpoint.init
    [.ok (.obj [("count", .num 2)]),
     .ok (.obj [("count", .num 2), ("next", .null), ("previous", .null),
       ("results", .arr [.obj [("name", .str "a")], .obj [("name", .str "b")]])])]
    true ⟨.undef, .undef, .undef, []⟩ ⟨.undef, .undef, .undef, []⟩
    (.obj [("count", .num 2)])
    (.obj [("count", .num 2), ("next", .null), ("previous", .null),
      ("results", .arr [.obj [("name", .str "a")], .obj [("name", .str "b")]])])
    []).2.1 rfl rfl

/-- C2: on any reachable endpoint state, `resolve` returns the cached
value with zero transport calls when the cache contains an entry for the
id (such an entry is always a decoded object, hence truthy), and
otherwise performs `fetch` and returns its result. -/
theorem resolve_cache_hit_or_fetch (resource : String) (st : EndpointState)
    (hr : EReachable resource st) (i : Int) (script : Script) :
    (∀ v : JSVal, mapFind st.cache (.num i) = some v →
      Endpoint.resolve resource st script i = ⟨.ok v, st, [], script⟩) ∧
    (mapFind st.cache (.num i) = none →
      Endpoint.resolve resource st script i = Endpoint.fetch resource st script i true) := by
  constructor
  · intro v hv
    have ht : jsTruthy v = true := reachable_numKeyedTruthy hr i v hv
    simp [Endpoint.resolve, Endpoint.get, jsMapGet, hv, ht]
  · intro hv
    simp [Endpoint.resolve, Endpoint.get, jsMapGet, hv, jsTruthy]

/-- Witness for C2: a state reached by one fetch serves the cached
object on `resolve` with no transport call, and misses fetch. -/
theorem resolve_cache_hit_or_fetch_witness :
    Endpoint.resolve "berry"
      (Endpoint.fetch "berry" Endpoint.init [.ok (.obj [("id", .num 1)])] 1 true).st [] 1 =
      ⟨.ok (.obj [("id", .num 1)]),
       (Endpoint.fetch "berry" Endpoint.init [.ok (.obj [("id", .num 1)])] 1 true).st,
       [], []⟩ ∧
    Endpoint.resolve "berry"
      (Endpoint.fetch "berry" Endpoint.init [.ok (.obj [("id", .num 1)])] 1 true).st [] 2 =
      Endpoint.fetch "berry"
        (Endpoint.fetch "berry" Endpoint.init [.ok (.obj [("id", .num 1)])] 1 true).st [] 2 true :=
  ⟨(resolve_cache_hit_or_fetch "berry" _
      (EReachable.step _ _ EReachable.init (EStep.fetchStep _ _ 1 true)) 1 []).1
      (.obj [("id", .num 1)]) rfl,
   (resolve_cache_hit_or_fetch "berry" _
      (EReachable.step _ _ EReachable.init (EStep.fetchStep _ _ 1 true)) 2 []).2 rfl⟩

/-- C3 fails on the code: `_cache` stores the name as decoded, not
lower-cased.  Fetching a payload with id 1 and name "Cheri" leaves the
Name Index without an entry under the lower-cased name "cheri", and the
upper-case lookup `get("CHERI")` misses (returns `undefined`), even
though the cache holds the named resource under id 1. -/
theorem nameIndex_lowercase_invariant_cex :
    mapFind ((NamedEndpoint.fetch "berry" NamedEndpoint.init
        [.ok (.obj [("id", .num 1), ("name", .str "Cheri")])] (.num 1) true).st)._nameMap
      (.str "cheri") = none ∧
    NamedEndpoint.get (NamedEndpoint.fetch "berry" NamedEndpoint.init
        [.ok (.obj [("id", .num 1), ("name", .str "Cheri")])] (.num 1) true).st
      (.str "CHERI") = .undef ∧
    mapFind ((NamedEndpoint.fetch "berry" NamedEndpoint.init
        [.ok (.obj [("id", .num 1), ("name", .str "Cheri")])] (.num 1) true).st).cache
      (.num 1) = some (.obj [("id", .num 1), ("name", .str "Cheri")]) ∧
    JSVal.obj [("id", .num 1), ("name", .str "Cheri")] ≠ .undef :=
  ⟨rfl, rfl, rfl, by simp⟩

/-- C3 amended: a successful named fetch of a payload with numeric id i
and string name n inserts the Name Index entry under n exactly as
decoded (not lower-cased) mapping to i, and a string lookup `get(s)`
returns the fetched payload precisely for those s whose lower-casing
equals n — so case-insensitive lookup works exactly when the decoded
name is already lower-case. -/
theorem nameIndex_raw_name (resource : String) (st : NamedEndpointState)
    (script rest : Script) (d : JSVal) (n : String) (i : Int)
    (p : NamedEndpointParam) (b : Bool)
    (hs : script = .ok d :: rest)
    (hid : getField d "id" = .num i) (hn : getField d "name" = .str n) :
    mapFind ((NamedEndpoint.fetch resource st script p b).st)._nameMap (.str n) =
      some (.num i) ∧
    (∀ s : String, jsToLower s = n →
      NamedEndpoint.get (NamedEndpoint.fetch resource st script p b).st (.str s) = d) := by
  subst hs
  constructor
  · simp [NamedEndpoint.fetch, NamedEndpoint._cache, hn, hid, mapFind_mapSet, jsEq]
  · intro s hlow
    simp [NamedEndpoint.fetch, NamedEndpoint._cache, NamedEndpoint.get, jsMapGet, hn, hid,
      hlow, mapFind_mapSet, jsEq]

/-- Witness for C3 amended: fetching an already-lower-case name "cheri"
makes the mixed-case lookup "CHERI" hit. -/
theorem nameIndex_raw_name_witness :
    NamedEndpoint.get (NamedEndpoint.fetch "berry" NamedEndpoint.init
        [.ok (.obj [("id", .num 1), ("name", .str "cheri")])] (.num 1) true).st
      (.str "CHERI") = .obj [("id", .num 1), ("name", .str "cheri")] :=
  (nameIndex_raw_name "berry" NamedEndpoint.init
    [.ok (.obj [("id", .num 1), ("name", .str "cheri")])] []
    (.obj [("id", .num 1), ("name", .str "cheri")]) "cheri" 1 (.num 1) true
    rfl rfl rfl).2 "CHERI" rfl

/-- C4: a successful `fetch` inserts the decoded payload into the cache
keyed by the payload's own `id` field, and the cache flag argument is
never consulted: for either flag value the outcome equals the
default-flag outcome, in both the base and the named endpoint. -/
theorem fetch_caches_ignores_flag (resource : String) (st : EndpointState)
    (stN : NamedEndpointState) (script rest : Script) (d : JSVal) (p : Int)
    (pN : NamedEndpointParam) (b : Bool) (hs : script = .ok d :: rest) :
    Endpoint.fetch resource st script p b =
      ⟨.ok d, { st with cache := mapSet st.cache (getField d "id") d },
       [BASE_URI ++ "/" ++ resource ++ "/" ++ toString p], rest⟩ ∧
    Endpoint.fetch resource st script p b = Endpoint.fetch resource st script p true ∧
    (NamedEndpoint.fetch resource stN script pN b).st.cache =
      mapSet stN.cache (getField d "id") d ∧
    NamedEndpoint.fetch resource stN script pN b =
      NamedEndpoint.fetch resource stN script pN true := by
  subst hs
  exact ⟨rfl, rfl, rfl, rfl⟩

/-- Witness for C4: concrete fetch with the flag false still caches. -/
theorem fetch_caches_ignores_flag_witness :
    Endpoint.fetch "berry" Endpoint.init [.ok (.obj [("id", .num 5)])] 5 false =
      ⟨.ok (.obj [("id", .num 5)]),
       { Endpoint.init with
         cache := mapSet Endpoint.init.cache (getField (.obj [("id", .num 5)]) "id")
           (.obj [("id", .num 5)]) },
       [BASE_URI ++ "/" ++ "berry" ++ "/" ++ toString (5 : Int)], []⟩ :=
  (fetch_caches_ignores_flag "berry" Endpoint.init NamedEndpoint.init
    [.ok (.obj [("id", .num 5)])] [] (.obj [("id", .num 5)]) 5 (.num 5) false rfl).1

/-- C5: with a snapshot present, `list(limit, offset)` issues no
transport call, leaves the state unchanged, and returns a listing whose
results are the snapshot's results sliced with start index `offset` and
end index `limit` (not `offset + limit`), and whose `count`, `next` and
`previous` are the snapshot's; likewise on the named endpoint. -/
theorem list_slices_snapshot (resource : String) (st : EndpointState)
    (stN : NamedEndpointState) (script : Script) (l lN : ApiResourceList)
    (limit offset : Int) :
    (st._list = some l →
      Endpoint.list resource st script limit offset =
        ⟨.ok ⟨l.count, l.next, l.previous, jsSlice l.results offset limit⟩,
         st, [], script⟩) ∧
    (stN._list = some lN →
      NamedEndpoint.list resource stN script limit offset =
        ⟨.ok ⟨lN.count, lN.next, lN.previous, jsSlice lN.results offset limit⟩,
         stN, [], script⟩) := by
  constructor
  · intro h
    simp [Endpoint.list, h]
  · intro h
    simp [NamedEndpoint.list, h]

/-- Witness for C5: slicing a five-element snapshot with limit 3 and
offset 1 yields elements 1 and 2 — the raw (offset, limit) bounds. -/
theorem list_slices_snapshot_witness :
    Endpoint.list "berry"
      ⟨[], some ⟨.num 5, .null, .null, [.num 0, .num 1, .num 2, .num 3, .num 4]⟩⟩ [] 3 1 =
      ⟨.ok ⟨.num 5, .null, .null,
        jsSlice [.num 0, .num 1, .num 2, .num 3, .num 4] 1 3⟩,
       ⟨[], some ⟨.num 5, .null, .null, [.num 0, .num 1, .num 2, .num 3, .num 4]⟩⟩,
       [], []⟩ ∧
    jsSlice [.num 0, .num 1, .num 2, .num 3, .num 4] 1 3 = [.num 1, .num 2] :=
  ⟨(list_slices_snapshot "berry"
      ⟨[], some ⟨.num 5, .null, .null, [.num 0, .num 1, .num 2, .num 3, .num 4]⟩⟩
      NamedEndpoint.init [] ⟨.num 5, .null, .null, [.num 0, .num 1, .num 2, .num 3, .num 4]⟩
      ⟨.undef, .undef, .undef, []⟩ 3 1).1 rfl, rfl⟩

/-- C6: when no snapshot exists and either of `listAll`'s two transport
calls fails, the failure propagates unchanged and the endpoint state is
unchanged — in particular the snapshot remains unset and no partial
snapshot is stored. -/
theorem listAll_failure_propagates (resource : String) (st : EndpointState)
    (script rest : Script) (e : TErr) (d1 : JSVal) (b : Bool) (h0 : st._list = none) :
    (script = .error e :: rest →
      Endpoint.listAll resource st script b =
        ⟨.error e, st, [BASE_URI ++ "/" ++ resource ++ "?limit=1"], rest⟩) ∧
    (script = .ok d1 :: .error e :: rest →
      Endpoint.listAll resource st script b =
        ⟨.error e, st,
         [BASE_URI ++ "/" ++ resource ++ "?limit=1",
          BASE_URI ++ "/" ++ resource ++ "?limit=" ++ jsToString (getField d1 "count")],
         rest⟩) := by
  constructor
  · intro hs
    subst hs
    simp [Endpoint.listAll, h0]
  · intro hs
    subst hs
    simp [Endpoint.listAll, h0]

/-- Witness for C6: a failing second call leaves the fresh endpoint
unchanged and rethrows the failure. -/
theorem listAll_failure_propagates_witness :
    Endpoint.listAll "berry" Endpoint.init
      [.ok (.obj [("count", .num 9)]), .error (.failure "boom")] true =
      ⟨.error (.failure "boom"), Endpoint.init,
       [BASE_URI ++ "/" ++ "berry" ++ "?limit=1",
        BASE_URI ++ "/" ++ "berry" ++ "?limit=" ++
          jsToString (getField (.obj [("count", .num 9)]) "count")],
       []⟩ :=
  (listAll_failure_propagates "berry" Endpoint.init
    [.ok (.obj [("count", .num 9)]), .error (.failure "boom")] [] (.failure "boom")
    (.obj [("count", .num 9)]) true rfl).2 rfl

/-- C7 fails on the code: `cache.set(data.id, data)` overwrites.  After
fetching the payload with id 1 and name "a", a second fetch (a public
operation, hence a step) whose response carries id 1 and name "b"
replaces the stored value for id 1. -/
theorem cache_entry_replaced_cex :
    mapFind ((Endpoint.fetch "berry" Endpoint.init
        [.ok (.obj [("id", .num 1), ("name", .str "a")])] 1 true).st).cache (.num 1) =
      some (.obj [("id", .num 1), ("name", .str "a")]) ∧
    EStep "berry"
      (Endpoint.fetch "berry" Endpoint.init
        [.ok (.obj [("id", .num 1), ("name", .str "a")])] 1 true).st
      (Endpoint.fetch "berry"
        (Endpoint.fetch "berry" Endpoint.init
          [.ok (.obj [("id", .num 1), ("name", .str "a")])] 1 true).st
        [.ok (.obj [("id", .num 1), ("name", .str "b")])] 1 true).st ∧
    mapFind ((Endpoint.fetch "berry"
        (Endpoint.fetch "berry" Endpoint.init
          [.ok (.obj [("id", .num 1), ("name", .str "a")])] 1 true).st
        [.ok (.obj [("id", .num 1), ("name", .str "b")])] 1 true).st).cache (.num 1) =
      some (.obj [("id", .num 1), ("name", .str "b")]) ∧
    JSVal.obj [("id", .num 1), ("name", .str "a")] ≠
      JSVal.obj [("id", .num 1), ("name", .str "b")] :=
  ⟨rfl, EStep.fetchStep _ _ 1 true, rfl, by simp⟩

/-- C7 amended: the cache never loses a key — every key present before
any public operation is still present afterwards — but the value stored
under a key can be overwritten by a later operation whose decoded
payload carries the same id. -/
theorem cache_keys_monotone (resource : String) (st stp : EndpointState)
    (h : EStep resource st stp) (k : JSVal)
    (hk : (mapFind st.cache k).isSome = true) :
    (mapFind stp.cache k).isSome = true := by
  cases h with
  | resolveStep script param =>
    unfold Endpoint.resolve
    by_cases hg : jsTruthy (Endpoint.get st param) = true
    · simpa [hg] using hk
    · simp only [Bool.not_eq_true] at hg
      simp only [hg, Bool.false_eq_true, if_false]
      unfold Endpoint.fetch
      cases script with
      | nil => exact hk
      | cons r rest =>
        cases r with
        | error e => exact hk
        | ok d => exact mapFind_mapSet_isSome st.cache (getField d "id") d k hk
  | fetchStep script param b =>
    unfold Endpoint.fetch
    cases script with
    | nil => exact hk
    | cons r rest =>
      cases r with
      | error e => exact hk
      | ok d => exact mapFind_mapSet_isSome st.cache (getField d "id") d k hk
  | listStep script limit offset =>
    rw [Endpoint.list_st]
    exact hk
  | listAllStep script b =>
    rw [show (Endpoint.listAll resource st script b).st.cache = st.cache from
      Endpoint.listAll_cache_eq resource st script b]
    exact hk
  | cacheStep data =>
    exact mapFind_mapSet_isSome st.cache (getField data "id") data k hk

/-- Witness for C7 amended: the key 1 survives a later fetch that
overwrites its value. -/
theorem cache_keys_monotone_witness :
    (mapFind ((Endpoint.fetch "berry" ⟨[(.num 1, .obj [("id", .num 1)])], none⟩
        [.ok (.obj [("id", .num 1), ("name", .str "b")])] 1 true).st).cache
      (.num 1)).isSome = true :=
  cache_keys_monotone "berry" ⟨[(.num 1, .obj [("id", .num 1)])], none⟩ _
    (EStep.fetchStep _ _ 1 true) (.num 1) rfl

/-- C8 fails on the code: `_cache` always runs
`_nameMap.set(data.name, data.id)`, so fetching a payload with no name
field adds a Name Index entry under the `undefined` key: the index goes
from empty to one entry. -/
theorem nameless_fetch_nameIndex_cex :
    ((NamedEndpoint.fetch "item" NamedEndpoint.init [.ok (.obj [("id", .num 7)])]
        (.num 7) true).st)._nameMap = [(.undef, .num 7)] ∧
    ((NamedEndpoint.fetch "item" NamedEndpoint.init [.ok (.obj [("id", .num 7)])]
        (.num 7) true).st)._nameMap ≠ NamedEndpoint.init._nameMap :=
  ⟨rfl, by
    rw [show ((NamedEndpoint.fetch "item" NamedEndpoint.init [.ok (.obj [("id", .num 7)])]
      (.num 7) true).st)._nameMap = [(.undef, .num 7)] from rfl]
    simp [NamedEndpoint.init]⟩

/-- C8 amended: a successful named fetch of a payload with no name field
populates the cache under the payload's id, and the Name Index gains (or
overwrites) only the entry under the `undefined` key; every string-keyed
Name Index entry is unchanged, so no name lookup can observe the new
entry. -/
theorem nameless_fetch_frame (resource : String) (st : NamedEndpointState)
    (script rest : Script) (d : JSVal) (p : NamedEndpointParam) (b : Bool)
    (hs : script = .ok d :: rest) (hn : getField d "name" = .undef) :
    (NamedEndpoint.fetch resource st script p b).st.cache =
      mapSet st.cache (getField d "id") d ∧
    (NamedEndpoint.fetch resource st script p b).st._nameMap =
      mapSet st._nameMap .undef (getField d "id") ∧
    (∀ s : String,
      mapFind ((NamedEndpoint.fetch resource st script p b).st)._nameMap (.str s) =
        mapFind st._nameMap (.str s)) := by
  subst hs
  refine ⟨rfl, ?_, ?_⟩
  · simp [NamedEndpoint.fetch, NamedEndpoint._cache, hn]
  · intro s
    simp [NamedEndpoint.fetch, NamedEndpoint._cache, hn, mapFind_mapSet, jsEq]

/-- Witness for C8 amended: concrete nameless fetch; the lookup under a
string key is unaffected. -/
theorem nameless_fetch_frame_witness :
    (NamedEndpoint.fetch "item" NamedEndpoint.init [.ok (.obj [("id", .num 7)])]
        (.num 7) true).st.cache =
      mapSet NamedEndpoint.init.cache (getField (.obj [("id", .num 7)]) "id")
        (.obj [("id", .num 7)]) ∧
    mapFind ((NamedEndpoint.fetch "item" NamedEndpoint.init
        [.ok (.obj [("id", .num 7)])] (.num 7) true).st)._nameMap (.str "zzz") =
      mapFind NamedEndpoint.init._nameMap (.str "zzz") :=
  ⟨(nameless_fetch_frame "item" NamedEndpoint.init [.ok (.obj [("id", .num 7)])] []
      (.obj [("id", .num 7)]) (.num 7) true rfl rfl).1,
   (nameless_fetch_frame "item" NamedEndpoint.init [.ok (.obj [("id", .num 7)])] []
      (.obj [("id", .num 7)]) (.num 7) true rfl rfl).2.2 "zzz"⟩

/-- C9: `get` is a pure lookup of the state — it takes no transport
script and issues no request by its very type — it never fails (it is
total, returning `undefined` as the absence marker), and it returns the
absence marker for an unknown id, and on the named endpoint for an
unknown name, provided the cache holds no entry under the `undefined`
key (always true when every decoded payload carried an `id` field, as
the transport contract requires). -/
theorem get_absent_marker (st : EndpointState) (stN : NamedEndpointState)
    (i : Int) (s : String)
    (hbase : mapFind st.cache (.num i) = none)
    (hname : mapFind stN._nameMap (.str (jsToLower s)) = none)
    (hundef : mapFind stN.cache .undef = none) :
    Endpoint.get st i = .undef ∧
    NamedEndpoint.get stN (.str s) = .undef ∧
    (∀ j : Int, mapFind stN.cache (.num j) = none →
      NamedEndpoint.get stN (.num j) = .undef) := by
  refine ⟨?_, ?_, ?_⟩
  · simp [Endpoint.get, jsMapGet, hbase]
  · simp [NamedEndpoint.get, jsMapGet, hname, hundef]
  · intro j hj
    simp [NamedEndpoint.get, jsMapGet, hj]

/-- Witness for C9: unknown id and unknown name on concrete states. -/
theorem get_absent_marker_witness :
    Endpoint.get ⟨[(.num 1, .obj [("id", .num 1)])], none⟩ 2 = .undef ∧
    NamedEndpoint.get (NamedEndpoint.fetch "berry" NamedEndpoint.init

        [.ok (.obj [("id", .num 1), ("name", .str "cheri")])] (.num 1) true).st
      (.str "unknown-name") = .undef :=
  ⟨(get_absent_marker ⟨[(.num 1, .obj [("id", .num 1)])], none⟩
      (NamedEndpoint.fetch "berry" NamedEndpoint.init
        [.ok (.obj [("id", .num 1), ("name", .str "cheri")])] (.num 1) true).st
      2 "unknown-name" rfl rfl rfl).1,
   (get_absent_marker ⟨[(.num 1, .obj [("id", .num 1)])], none⟩
      (NamedEndpoint.fetch "berry" NamedEndpoint.init
        [.ok (.obj [("id", .num 1), ("name", .str "cheri")])] (.num 1) true).st
      2 "unknown-name" rfl rfl rfl).2.1⟩

/-- C10: `resolve` decides a cache hit by JavaScript truthiness, not key
presence: when the cache holds a falsy value under the id, `resolve`
performs a fresh `fetch` (and returns its result); it returns the cached
value without a transport call exactly when that value is truthy. -/
theorem resolve_truthiness (resource : String) (st : EndpointState) (script : Script)
    (i : Int) (v : JSVal) (hv : mapFind st.cache (.num i) = some v) :
    (jsTruthy v = false →
      Endpoint.resolve resource st script i = Endpoint.fetch resource st script i true) ∧
    (jsTruthy v = true →
      Endpoint.resolve resource st script i = ⟨.ok v, st, [], script⟩) := by
  constructor
  · intro hf
    simp [Endpoint.resolve, Endpoint.get, jsMapGet, hv, hf]
  · intro ht
    simp [Endpoint.resolve, Endpoint.get, jsMapGet, hv, ht]

/-- Witness for C10: a cached falsy value (the number 0) under id 3
makes `resolve(3)` fetch; a cached truthy object is returned directly. -/
theorem resolve_truthiness_witness :
    Endpoint.resolve "berry" ⟨[(.num 3, .num 0)], none⟩
        [.ok (.obj [("id", .num 3)])] 3 =
      Endpoint.fetch "berry" ⟨[(.num 3, .num 0)], none⟩
        [.ok (.obj [("id", .num 3)])] 3 true ∧
    Endpoint.resolve "berry" ⟨[(.num 3, .obj [("id", .num 3)])], none⟩ [] 3 =
      ⟨.ok (.obj [("id", .num 3)]), ⟨[(.num 3, .obj [("id", .num 3)])], none⟩, [], []⟩ :=
  ⟨(resolve_truthiness "berry" ⟨[(.num 3, .num 0)], none⟩
      [.ok (.obj [("id", .num 3)])] 3 (.num 0) rfl).1 rfl,
   (resolve_truthiness "berry" ⟨[(.num 3, .obj [("id", .num 3)])], none⟩ [] 3
      (.obj [("id", .num 3)]) rfl).2 rfl⟩
